import Mathlib

/-!
Shallow embedding of the Toon Homey app: `app.js` (session management),
`lib/Util.js` (retry runner) and `drivers/toon/device.js` (webhook
subscription scheduling, status reconciliation and the thermostat write
path). JS numbers are modelled as rationals; a JS field that may be
absent or of the wrong type is an `Option`. Asynchronous provider calls
are modelled by Boolean success oracles; a rejected promise is an
`Except.error`.
-/

/-- Outcome of `Util.wrapAsyncWithRetry`: `execs` is the number of times the
wrapped method was executed, `waits` the list of delays (ms) slept between
consecutive executions, `success` whether the returned promise resolved. -/
structure RetryResult where
  execs : Nat
  waits : List Nat
  success : Bool
deriving DecidableEq, Repr

/-- The `executeMethod` loop of `Util.wrapAsyncWithRetry` in `lib/Util.js`.
`method k` says whether the k-th execution of the wrapped operation (0-based)
succeeds; `retries` is the JS `retries` counter and `fuel` equals
`times - retries`, so `fuel > 0` is exactly the JS guard `times > retries`.
On failure with fuel left, the JS code increments `retries` and waits
`interval(retries)` (the incremented value) before re-executing. -/
def retryExecFuel (method : Nat → Bool) (interval : Nat → Nat) :
    Nat → Nat → RetryResult
  | fuel, retries =>
    if method retries then ⟨1, [], true⟩
    else
      match fuel with
      | 0 => ⟨1, [], false⟩
      | f + 1 =>
        let rest := retryExecFuel method interval f (retries + 1)
        ⟨rest.execs + 1, interval (retries + 1) :: rest.waits, rest.success⟩

/-- `Util.wrapAsyncWithRetry(method, times, interval)` from `lib/Util.js`:
starts the loop with `retries = 0`, so the initial fuel is `times`. -/
def wrapAsyncWithRetry (method : Nat → Bool) (times : Nat)
    (interval : Nat → Nat) : RetryResult :=
  retryExecFuel method interval times 0

/-- The `TEMPERATURE_STATES` enum of `drivers/toon/device.js`. -/
def TEMPERATURE_STATES : List (String × ℚ) :=
  [("comfort", 0), ("home", 1), ("sleep", 2), ("away", 3), ("none", -1)]

/-- `ToonDevice.getKey(obj, val)`: first key of the object whose value equals
`val`, `none` when unmapped (JS `undefined`). -/
def getKey (obj : List (String × ℚ)) (val : ℚ) : Option String :=
  (obj.find? (fun e => decide (e.2 = val))).map (fun e => e.1)

/-- JS `Math.round`: round half towards positive infinity. -/
def jsRound (q : ℚ) : ℤ := ⌊q + 1 / 2⌋

/-- The recurring conversion `Math.round((x / 100) * 10) / 10` used by the
device code to turn centi-degree provider values into one-decimal degrees. -/
def roundCenti (x : ℚ) : ℚ := ((jsRound ((x / 100) * 10) : ℚ)) / 10

/-- The raw thermostat-info object stored verbatim as `this.thermostatInfo`
(the baseline for future writes). Fields the device code reads; `none`
means absent or not a number. -/
structure ThermostatInfo where
  currentSetpoint : Option ℚ
  programState : Option ℚ
  activeState : Option ℚ
  currentDisplayTemp : Option ℚ
  currentHumidity : Option ℚ
deriving DecidableEq, Repr

/-- The raw power-usage object stored as `this.powerUsage`. -/
structure PowerUsage where
  value : Option ℚ
  dayUsage : Option ℚ
  dayLowUsage : Option ℚ
deriving DecidableEq, Repr

/-- The raw gas-usage object stored as `this.gasUsage`. -/
structure GasUsage where
  dayUsage : Option ℚ
deriving DecidableEq, Repr

/-- The device's Homey capability values. `none` is an unset (or, after a
conversion of a missing input, NaN) value; `has_measure_humidity` records
whether the dynamically addable humidity capability is present. -/
structure Capabilities where
  measure_power : Option ℚ
  meter_power : Option ℚ
  meter_gas : Option ℚ
  measure_temperature : Option ℚ
  target_temperature : Option ℚ
  temperature_state : Option String
  has_measure_humidity : Bool
  measure_humidity : Option ℚ
deriving DecidableEq, Repr

/-- The callback bound by the device's `setTimeout` call; the only renewal
timer the device arms invokes `registerWebhookSubscription`. -/
inductive TimerCb where
  | registerWebhookSub
deriving DecidableEq, Repr

/-- A pending `setTimeout` timer: its handle, its delay in milliseconds and
the callback it will invoke. -/
structure Timer where
  id : Nat
  delayMs : ℚ
  cb : TimerCb
deriving DecidableEq, Repr

/-- The host timer system: the list of currently pending timers armed by this
device and a fresh-handle counter. `clearTimeout` removes a pending timer by
handle; `setTimeout` appends a fresh one. -/
structure TimerSys where
  timers : List Timer
  nextId : Nat
deriving DecidableEq, Repr

/-- In-memory state of one `ToonDevice` instance: `dataId` is
`getData().id` (the display common name), `agreementId` is `getData()
.agreementId`; the raw data stores, the preset-id to setpoint map
(`this.temperatureStatesMap`), the capability values, the `_registeringWebhooks`
advisory flag, the `_webhookRegistrationTimeout` single-slot timer handle,
availability and the warning message. -/
structure DeviceState where
  dataId : String
  agreementId : String
  gasUsage : GasUsage
  powerUsage : PowerUsage
  thermostatInfo : ThermostatInfo
  temperatureStatesMap : List (ℚ × ℚ)
  caps : Capabilities
  registeringWebhooks : Bool
  webhookRegistrationTimeout : Option Nat
  available : Bool
  warning : Option String
deriving DecidableEq, Repr

/-- JS object assignment `map[id] = tempValue` on the assoc-list model of
`this.temperatureStatesMap`. -/
def setAssocQ (m : List (ℚ × ℚ)) (k v : ℚ) : List (ℚ × ℚ) :=
  if m.any (fun e => decide (e.1 = k)) then
    m.map (fun e => if e.1 = k then (k, v) else e)
  else m ++ [(k, v)]

/-- Lookup `this.temperatureStatesMap[stateId]`; `none` is JS `undefined`. -/
def lookupAssocQ (m : List (ℚ × ℚ)) (k : ℚ) : Option ℚ :=
  (m.find? (fun e => decide (e.1 = k))).map (fun e => e.2)

/-- One entry of `updateDataSet.thermostatStates.state`. -/
structure ThermoStateEntry where
  id : ℚ
  tempValue : ℚ
deriving DecidableEq, Repr

/-- The `updateDataSet` inner container of a status payload; each sub-merge
source is present or absent. -/
structure UpdateDataSet where
  thermostatStates : Option (List ThermoStateEntry)
  powerUsage : Option PowerUsage
  gasUsage : Option GasUsage
  thermostatInfo : Option ThermostatInfo
deriving DecidableEq, Repr

/-- The `body` of an incoming webhook or poll payload. `commonName` is
`some` only when the JS value is a string; `timeToLiveSeconds` is `some`
only when the JS value is a number. -/
structure WebhookBody where
  updateDataSet : Option UpdateDataSet
  commonName : Option String
  timeToLiveSeconds : Option ℚ
deriving DecidableEq, Repr

/-- The incoming payload envelope handed to `processStatusUpdate`. -/
structure WebhookPayload where
  body : Option WebhookBody
deriving DecidableEq, Repr

/-- `clearTimeout(this._webhookRegistrationTimeout)`: when the slot holds a
handle, drop the pending timer with that handle (a no-op when it already
fired or the slot is empty). -/
def clearRenewalTimer (s : DeviceState) (ts : TimerSys) : TimerSys :=
  match s.webhookRegistrationTimeout with
  | some tid => { ts with timers := ts.timers.filter (fun t => t.id != tid) }
  | none => ts

/-- The renewal-timer block of `processStatusUpdate`: clear the previous
timer, then `setTimeout(this.registerWebhookSubscription.bind(this),
ttl * 1000)` and store the fresh handle in the single slot. -/
def armRenewalTimer (s : DeviceState) (ts : TimerSys) (ttl : ℚ) :
    DeviceState × TimerSys :=
  let ts := clearRenewalTimer s ts
  ({ s with webhookRegistrationTimeout := some ts.nextId },
   { timers := ts.timers ++ [⟨ts.nextId, ttl * 1000, TimerCb.registerWebhookSub⟩],
     nextId := ts.nextId + 1 })

/-- `ToonDevice._processPowerUsageData`: store the raw object, then emit
`measure_power` when an instantaneous value is present and `meter_power`
(summed day usages converted Wh to kWh) when both daily figures are. -/
def _processPowerUsageData (s : DeviceState) (data : PowerUsage) : DeviceState :=
  let s := { s with powerUsage := data }
  let s := match data.value with
    | some v => { s with caps := { s.caps with measure_power := some v } }
    | none => s
  match data.dayUsage, data.dayLowUsage with
  | some d, some dl =>
    { s with caps := { s.caps with meter_power := some ((d + dl) / 1000) } }
  | _, _ => s

/-- `ToonDevice._processGasUsageData`: store the raw object, then emit
`meter_gas` (Wh to kWh) when the daily figure is present. -/
def _processGasUsageData (s : DeviceState) (data : GasUsage) : DeviceState :=
  let s := { s with gasUsage := data }
  match data.dayUsage with
  | some d => { s with caps := { s.caps with meter_gas := some (d / 1000) } }
  | none => s

/-- `ToonDevice._processThermostatInfoData`: store the raw object as the new
baseline, then derive room temperature, target temperature and the active
preset name; for humidity, when the capability is missing it is added
(`addCapability`) and otherwise the value is set (`setCapabilityValue`) —
the two arms of the JS `if/else`. -/
def _processThermostatInfoData (s : DeviceState) (data : ThermostatInfo) :
    DeviceState :=
  let s := { s with thermostatInfo := data }
  let s := match data.currentDisplayTemp with
    | some x =>
      { s with caps := { s.caps with measure_temperature := some (roundCenti x) } }
    | none => s
  let s := match data.currentSetpoint with
    | some x =>
      { s with caps := { s.caps with target_temperature := some (roundCenti x) } }
    | none => s
  let s := match data.activeState with
    | some x =>
      { s with caps := { s.caps with temperature_state := getKey TEMPERATURE_STATES x } }
    | none => s
  match data.currentHumidity with
  | some h =>
    if s.caps.has_measure_humidity then
      { s with caps := { s.caps with measure_humidity := some h } }
    else
      { s with caps := { s.caps with has_measure_humidity := true } }
  | none => s

/-- `ToonDevice.processStatusUpdate`: unwrap the envelope (ignore payloads
without an `updateDataSet`), drop payloads whose string `commonName`
differs from this device's `getData().id`, re-arm the renewal timer when a
numeric `timeToLiveSeconds` is present, then apply the independent
sub-merges in source order. -/
def processStatusUpdate (s : DeviceState) (ts : TimerSys)
    (data : WebhookPayload) : DeviceState × TimerSys :=
  match data.body with
  | none => (s, ts)
  | some body =>
    match body.updateDataSet with
    | none => (s, ts)
    | some dataRootObject =>
      if (match body.commonName with
          | some cn => cn != s.dataId
          | none => false) then (s, ts)
      else
        let sts := match body.timeToLiveSeconds with
          | some ttl => armRenewalTimer s ts ttl
          | none => (s, ts)
        let s := sts.1
        let ts := sts.2
        let s := match dataRootObject.thermostatStates with
          | some entries =>
            let m := entries.foldl (fun m e => setAssocQ m e.id e.tempValue) s.temperatureStatesMap
            { s with temperatureStatesMap := m }
          | none => s
        let s := match dataRootObject.powerUsage with
          | some pu => _processPowerUsageData s pu
          | none => s
        let s := match dataRootObject.gasUsage with
          | some gu => _processGasUsageData s gu
          | none => s
        let s := match dataRootObject.thermostatInfo with
          | some ti => _processThermostatInfoData s ti
          | none => s
        (s, ts)

/-- Outcome of `ToonDevice.registerWebhookSubscription`: the new device
state, the number of provider subscribe calls issued
(`oAuth2Client.registerWebhookSubscription`), and whether the returned
promise resolved. -/
structure RegisterResult where
  state : DeviceState
  providerCalls : Nat
  ok : Bool
deriving DecidableEq, Repr

/-- `ToonDevice.registerWebhookSubscription`: return immediately when
`_registeringWebhooks` is already set; otherwise set the flag and run the
provider subscribe call through `wrapAsyncWithRetry` with `retryTimes = 10`
and interval `retryCount => 6000 * 2 ** retryCount`. On success the flag is
reset and the warning cleared; on exhaustion the flag is reset, a warning is
set and the failure is rethrown. `providerOk k` says whether the k-th
provider subscribe attempt succeeds. -/
def registerWebhookSubscription (s : DeviceState) (providerOk : Nat → Bool) :
    RegisterResult :=
  if s.registeringWebhooks then ⟨s, 0, true⟩
  else
    let s := { s with registeringWebhooks := true }
    let r := wrapAsyncWithRetry providerOk 10 (fun retryCount => 6000 * 2 ^ retryCount)
    if r.success then
      ⟨{ s with registeringWebhooks := false, warning := none }, r.execs, true⟩
    else
      ⟨{ s with registeringWebhooks := false, warning := some "api.error_webhook_registration" }, r.execs, false⟩

/-- `ToonDevice.onOAuth2Deleted`: when a client is bound, await the provider
unsubscribe; the call is not guarded by any try/catch, so a rejection
propagates out of the handler before `clearTimeout` is reached. Only after a
successful (or skipped) unsubscribe is the renewal timer cleared. -/
def onOAuth2Deleted (s : DeviceState) (ts : TimerSys)
    (hasClient unsubOk : Bool) : Except String (DeviceState × TimerSys) :=
  if hasClient && !unsubOk then .error "unsubscribe failed"
  else .ok (s, clearRenewalTimer s ts)

/-- `TEMPERATURE_STATES[state]` for a preset name; `none` is JS `undefined`
for a name outside the enum. -/
def stateIdOf (name : String) : Option ℚ :=
  (TEMPERATURE_STATES.find? (fun e => e.1 == name)).map (fun e => e.2)

/-- Outcome of `ToonDevice.updateState`: the promise result (the state name
on success), the new device state, and the `data` object sent to the
provider's thermostat write endpoint. -/
structure UpdateStateOutcome where
  result : Except String String
  state : DeviceState
  sent : ThermostatInfo
deriving Repr

/-- `ToonDevice.updateState(state, keepProgram)`: look the preset name up in
the enum, merge `activeState` and `programState` (2 when resuming the
program, 0 otherwise) into the thermostat-info baseline, send it; on
provider success, when `stateId >= 0` (JS: false for the sentinel -1 and for
`undefined`), set `target_temperature` to
`Math.round((temperatureStatesMap[stateId] / 100) * 10) / 10` — a missing
map entry yields NaN, modelled as `none`. On provider failure an error is
thrown. -/
def updateState (s : DeviceState) (state : String) (keepProgram : Bool)
    (providerOk : Bool) : UpdateStateOutcome :=
  let stateId := stateIdOf state
  let data := { s.thermostatInfo with
    activeState := stateId,
    programState := some (if keepProgram then 2 else 0) }
  if providerOk then
    match stateId with
    | some q =>
      if 0 ≤ q then
        ⟨.ok state,
         { s with caps := { s.caps with
             target_temperature :=
               (lookupAssocQ s.temperatureStatesMap q).map roundCenti } },
         data⟩
      else ⟨.ok state, s, data⟩
    | none => ⟨.ok state, s, data⟩
  else ⟨.error "capability.error_set_temperature_state", s, data⟩

/-- A JS argument value for `setTargetTemperature`: a number or anything
else. -/
inductive JsValue where
  | num (val : ℚ)
  | other
deriving DecidableEq, Repr

/-- Outcome of `ToonDevice.setTargetTemperature`: the promise result, the new
device state, and the `data` object sent to the provider (`none` when no
provider write was issued at all). -/
structure SetTargetResult where
  result : Except String ℚ
  state : DeviceState
  sent : Option ThermostatInfo
deriving Repr

/-- `ToonDevice.setTargetTemperature(temperature)`: a non-number argument
throws before the optimistic `setCapabilityValue` and before the provider
write. For a number, the capability is set optimistically, the merged
baseline (`currentSetpoint = temperature * 100`, `programState = 2`,
`activeState = -1`) is sent; on success `temperature_state` is cleared to
the sentinel and the temperature returned; on failure the optimistic value
stays and an error is thrown. -/
def setTargetTemperature (s : DeviceState) (temperature : JsValue)
    (providerOk : Bool) : SetTargetResult :=
  match temperature with
  | .other =>
    ⟨.error "capability.error_set_target_temperature: invalid_temperature", s, none⟩
  | .num t =>
    let data := { s.thermostatInfo with
      currentSetpoint := some (t * 100), programState := some 2,
      activeState := some (-1) }
    let s := { s with caps := { s.caps with target_temperature := some t } }
    if providerOk then
      ⟨.ok t, { s with caps := { s.caps with temperature_state := some "none" } },
       some data⟩
    else
      ⟨.error "capability.error_set_target_temperature", s, some data⟩

/-- `ToonApp._getSession`: `sessions` is the key set of the persisted OAuth2
session store. More than one key is an integrity violation and throws;
exactly one returns the sessions object; zero returns `null`. -/
def _getSession (sessions : List String) : Except String (Option (List String)) :=
  if sessions.length > 1 then .error "Multiple OAuth2 sessions found, not allowed."
  else if sessions.length == 1 then .ok (some sessions)
  else .ok none

/-- `ToonApp.isAuthenticated`: truthiness of the `_getSession` result; any
`_getSession` failure is rethrown as a generic error. -/
def isAuthenticated (sessions : List String) : Except String Bool :=
  match _getSession sessions with
  | .error _ => .error "Could not get current OAuth2 session"
  | .ok s => .ok s.isSome

/-- Modelled from the spec: `setUnavailable` is provided by the host
framework (homey-oauth2app / Homey SDK, not part of this repository); per
the spec it marks the device unavailable and must not throw when the device
is already unavailable, so it is a total state update. -/
def setUnavailable (d : DeviceState) : DeviceState := { d with available := false }

/-- `ToonApp.logout`: read the persisted sessions via `_getSession`. With
zero sessions `_getSession` returns `null` and `Object.keys(null)` throws a
TypeError; with one session its key is taken, the client is deleted
(`deleteOAuth2Client`, framework: removes the persisted session with that
key) and every managed device is marked unavailable. -/
def logout (sessions : List String) (devices : List DeviceState) :
    Except String (List String × List DeviceState) :=
  match _getSession sessions with
  | .error e => .error e
  | .ok none => .error "TypeError: Cannot convert undefined or null to object"
  | .ok (some sessionKeys) =>
    match sessionKeys.head? with
    | some sessionId =>
      .ok (sessions.filter (fun k => k != sessionId), devices.map setUnavailable)
    | none => .ok (sessions, devices.map setUnavailable)

/-- An empty thermostat-info object (`this.thermostatInfo = {}` at init). -/
def emptyThermostatInfo : ThermostatInfo := ⟨none, none, none, none, none⟩

/-- Capability values of a freshly initialised device. -/
def emptyCaps : Capabilities := ⟨none, none, none, none, none, none, false, none⟩

/-- A freshly initialised device, as `onOAuth2Init` leaves it. -/
def dev0 : DeviceState :=
  { dataId := "dev", agreementId := "agr", gasUsage := ⟨none⟩,
    powerUsage := ⟨none, none, none⟩, thermostatInfo := emptyThermostatInfo,
    temperatureStatesMap := [], caps := emptyCaps, registeringWebhooks := false,
    webhookRegistrationTimeout := none, available := true, warning := none }

/-- Shifting a mapped range by one: used to align the waits list of the
retry loop across one recursive step. -/
theorem range_map_shift (f : Nat → Nat) (n a : Nat) :
    (List.range (n + 1)).map (fun k => f (a + k)) =
      f a :: (List.range n).map (fun k => f (a + 1 + k)) := by
  rw [List.range_succ_eq_map, List.map_cons, List.map_map]
  refine congrArg₂ List.cons (by simp) ?_
  refine List.map_congr_left ?_
  intro k _
  show f (a + (k + 1)) = f (a + 1 + k)
  congr 1
  omega

/-- The retry loop always executes the wrapped method at least once. -/
theorem retryExecFuel_execs_pos (method : Nat → Bool) (interval : Nat → Nat)
    (fuel retries : Nat) : 1 ≤ (retryExecFuel method interval fuel retries).execs := by
  cases fuel <;> rw [retryExecFuel] <;> split <;> simp

/-- When every execution fails, the retry loop runs the method once plus once
per unit of fuel, sleeping `interval (retries + 1 + k)` before the k-th
re-execution, and reports failure. -/
theorem retryExecFuel_all_fail (method : Nat → Bool) (interval : Nat → Nat)
    (h : ∀ k, method k = false) :
    ∀ fuel retries, retryExecFuel method interval fuel retries =
      ⟨fuel + 1, (List.range fuel).map (fun k => interval (retries + 1 + k)), false⟩ := by
  intro fuel
  induction fuel with
  | zero =>
    intro retries
    rw [retryExecFuel]
    simp [h]
  | succ f ih =>
    intro retries
    rw [retryExecFuel]
    simp only [h, Bool.false_eq_true, if_false, ih (retries + 1)]
    rw [range_map_shift]

/-- When the first `j` executions fail and the j-th (0-based) succeeds while
fuel remains, the retry loop runs the method exactly `j + 1` times, sleeping
`interval (retries + 1 + k)` before the k-th re-execution, and reports
success. -/
theorem retryExecFuel_first_success (method : Nat → Bool) (interval : Nat → Nat) :
    ∀ (j fuel retries : Nat), j ≤ fuel →
      (∀ k, k < j → method (retries + k) = false) →
      method (retries + j) = true →
      retryExecFuel method interval fuel retries =
        ⟨j + 1, (List.range j).map (fun k => interval (retries + 1 + k)), true⟩ := by
  intro j
  induction j with
  | zero =>
    intro fuel retries _ _ hj
    have hm : method retries = true := by simpa using hj
    cases fuel <;> rw [retryExecFuel] <;> simp [hm]
  | succ j ih =>
    intro fuel retries hle hfail hsucc
    have h0 : method retries = false := by simpa using hfail 0 (Nat.succ_pos j)
    obtain ⟨f, rfl⟩ : ∃ f, fuel = f + 1 := ⟨fuel - 1, by omega⟩
    rw [retryExecFuel]
    simp only [h0, Bool.false_eq_true, if_false]
    rw [ih f (retries + 1) (by omega)
      (fun k hk => by have h := hfail (k + 1) (by omega); rw [← h]; congr 1; omega)
      (by rw [← hsucc]; congr 1; omega)]
    rw [range_map_shift]

/-- C1: for every persisted-session store, `isAuthenticated()` returns false
when the store holds zero sessions, true when it holds exactly one, and
raises an error when it holds two or more — it never merges them or picks
one. -/
theorem isAuthenticated_session_count :
    isAuthenticated [] = .ok false ∧
    (∀ s : String, isAuthenticated [s] = .ok true) ∧
    (∀ (s t : String) (rest : List String),
      isAuthenticated (s :: t :: rest) = .error "Could not get current OAuth2 session") := by
  refine ⟨rfl, fun s => rfl, fun s t rest => ?_⟩
  have h : (s :: t :: rest).length > 1 := by
    simp only [List.length_cons]
    omega
  unfold isAuthenticated _getSession
  rw [if_pos h]

/-- C3: the retry runner with maxRetries = 2 and interval `n ↦ 100·n` on an
operation failing its first two executions and succeeding on the third runs
the operation exactly three times, waits 100 ms then 200 ms, and resolves;
in general it succeeds after `j` failures whenever `j ≤ maxRetries`, with
deterministic delays `interval (1 + k)`, and when every execution fails it
stops after `maxRetries + 1` executions and propagates the failure. -/
theorem wrapAsyncWithRetry_spec :
    wrapAsyncWithRetry (fun k => decide (2 ≤ k)) 2 (fun n => 100 * n) = ⟨3, [100, 200], true⟩ ∧
    (∀ (method : Nat → Bool) (times : Nat) (interval : Nat → Nat) (j : Nat),
      j ≤ times → (∀ k, k < j → method k = false) → method j = true →
      wrapAsyncWithRetry method times interval =
        ⟨j + 1, (List.range j).map (fun k => interval (1 + k)), true⟩) ∧
    (∀ (method : Nat → Bool) (times : Nat) (interval : Nat → Nat),
      (∀ k, method k = false) →
      wrapAsyncWithRetry method times interval =
        ⟨times + 1, (List.range times).map (fun k => interval (1 + k)), false⟩) := by
  refine ⟨by decide, ?_, ?_⟩
  · intro method times interval j hj hfail hsucc
    have h := retryExecFuel_first_success method interval j times 0 hj
      (fun k hk => by simpa using hfail k hk) (by simpa using hsucc)
    unfold wrapAsyncWithRetry
    rw [h]
  · intro method times interval hfail
    have h := retryExecFuel_all_fail method interval hfail times 0
    unfold wrapAsyncWithRetry
    rw [h]

/-- Witness for C3: a run that fails once then succeeds with maxRetries = 3
(one wait of 5·1 ms), and a run that always fails with maxRetries = 1
(two executions, one wait of 7·1 ms, failure propagated). -/
theorem wrapAsyncWithRetry_spec_witness :
    (1 ≤ 3 ∧
      wrapAsyncWithRetry (fun k => decide (1 ≤ k)) 3 (fun n => 5 * n) = ⟨2, [5], true⟩) ∧
    wrapAsyncWithRetry (fun _ => false) 1 (fun n => 7 * n) = ⟨2, [7], false⟩ := by
  refine ⟨⟨by omega, ?_⟩, ?_⟩
  · have h := wrapAsyncWithRetry_spec.2.1 (fun k => decide (1 ≤ k)) 3 (fun n => 5 * n) 1
      (by omega) (fun k hk => by have h0 : k = 0 := Nat.lt_one_iff.mp hk; subst h0; rfl) rfl
    rw [h]
    decide
  · have h := wrapAsyncWithRetry_spec.2.2 (fun _ => false) 1 (fun n => 7 * n) (fun k => rfl)
    rw [h]
    decide

/-- C2: a call to `registerWebhookSubscription` while the `_registeringWebhooks`
flag is set returns immediately, unchanged and with zero provider subscribe
calls; a call with the flag clear issues at least one provider call — so at
most one registration attempt is in flight per device. -/
theorem registerWebhookSubscription_single_flight :
    (∀ (s : DeviceState) (providerOk : Nat → Bool),
      registerWebhookSubscription { s with registeringWebhooks := true } providerOk =
        ⟨{ s with registeringWebhooks := true }, 0, true⟩) ∧
    (∀ (s : DeviceState) (providerOk : Nat → Bool),
      1 ≤ (registerWebhookSubscription { s with registeringWebhooks := false } providerOk).providerCalls) := by
  constructor
  · intro s providerOk
    simp [registerWebhookSubscription]
  · intro s providerOk
    unfold registerWebhookSubscription
    have h1 : ({ s with registeringWebhooks := false } : DeviceState).registeringWebhooks = false := rfl
    rw [h1]
    simp only [Bool.false_eq_true, if_false]
    split
    · simpa [wrapAsyncWithRetry] using
        retryExecFuel_execs_pos providerOk (fun retryCount => 6000 * 2 ^ retryCount) 10 0
    · simpa [wrapAsyncWithRetry] using
        retryExecFuel_execs_pos providerOk (fun retryCount => 6000 * 2 ^ retryCount) 10 0

/-- C10: `setTargetTemperature` with a non-number argument throws before the
optimistic capability update and before any provider write: the device state
is returned unchanged and no data is sent, so the failure is atomic. -/
theorem setTargetTemperature_invalid_atomic (s : DeviceState) (providerOk : Bool) :
    setTargetTemperature s .other providerOk =
      ⟨.error "capability.error_set_target_temperature: invalid_temperature", s, none⟩ := rfl

/-- Power-usage reconciliation never touches the renewal-timer slot. -/
theorem _processPowerUsageData_frame (s : DeviceState) (pu : PowerUsage) :
    (_processPowerUsageData s pu).webhookRegistrationTimeout = s.webhookRegistrationTimeout := by
  unfold _processPowerUsageData
  dsimp only
  split <;> split <;> rfl

/-- Gas-usage reconciliation never touches the renewal-timer slot. -/
theorem _processGasUsageData_frame (s : DeviceState) (gu : GasUsage) :
    (_processGasUsageData s gu).webhookRegistrationTimeout = s.webhookRegistrationTimeout := by
  unfold _processGasUsageData
  dsimp only
  split <;> rfl

/-- Thermostat-info reconciliation never touches the renewal-timer slot. -/
theorem _processThermostatInfoData_frame (s : DeviceState) (ti : ThermostatInfo) :
    (_processThermostatInfoData s ti).webhookRegistrationTimeout = s.webhookRegistrationTimeout := by
  unfold _processThermostatInfoData
  dsimp only
  split <;> split <;> split <;> split <;> (try split) <;> rfl

/-- C4: processing an accepted payload (inner data present, no foreign
common name) carrying a numeric time-to-live cancels the previously
scheduled renewal timer and leaves exactly one pending timer, firing
`registerWebhookSubscription` after `ttl * 1000` milliseconds, its fresh
handle stored in the single slot. The hypothesis `hinv` is the single-slot
invariant: every pending renewal timer is the one the slot refers to. -/
theorem processStatusUpdate_renewal_timer (s : DeviceState) (ts : TimerSys)
    (body : WebhookBody) (ds : UpdateDataSet) (ttl : ℚ)
    (hds : body.updateDataSet = some ds)
    (hcn : ∀ cn, body.commonName = some cn → cn = s.dataId)
    (httl : body.timeToLiveSeconds = some ttl)
    (hinv : ∀ t ∈ ts.timers, some t.id = s.webhookRegistrationTimeout) :
    (processStatusUpdate s ts ⟨some body⟩).2.timers =
      [⟨ts.nextId, ttl * 1000, TimerCb.registerWebhookSub⟩] ∧
    (processStatusUpdate s ts ⟨some body⟩).1.webhookRegistrationTimeout = some ts.nextId := by
  have hnext : (clearRenewalTimer s ts).nextId = ts.nextId := by
    unfold clearRenewalTimer
    cases s.webhookRegistrationTimeout <;> rfl
  have hclear : (clearRenewalTimer s ts).timers = [] := by
    unfold clearRenewalTimer
    cases ho : s.webhookRegistrationTimeout with
    | none =>
      cases htl : ts.timers with
      | nil => rfl
      | cons a l =>
        have h := hinv a (by rw [htl]; exact List.mem_cons_self a l)
        rw [ho] at h
        exact absurd h (by simp)
    | some tid =>
      simp only
      refine List.filter_eq_nil_iff.mpr ?_
      intro t ht
      have h := hinv t ht
      rw [ho] at h
      have hid : t.id = tid := Option.some.inj h
      simp [hid]
  obtain ⟨uds, cno, ttlo⟩ := body
  simp only at hds httl hcn
  subst hds httl
  obtain ⟨tsf, puf, guf, tif⟩ := ds
  cases cno with
  | none =>
    unfold processStatusUpdate
    dsimp only
    cases tsf <;> cases puf <;> cases guf <;> cases tif <;>
      simp [armRenewalTimer, hclear, hnext, _processPowerUsageData_frame,
        _processGasUsageData_frame, _processThermostatInfoData_frame]
  | some c =>
    have hc : c = s.dataId := hcn c rfl
    unfold processStatusUpdate
    dsimp only
    rw [hc, bne_self_eq_false]
    simp only [Bool.false_eq_true, if_false]
    cases tsf <;> cases puf <;> cases guf <;> cases tif <;>
      simp [armRenewalTimer, hclear, hnext, _processPowerUsageData_frame,
        _processGasUsageData_frame, _processThermostatInfoData_frame]

/-- Witness for C4: a fresh device with no pending timer receives a payload
with time-to-live 600 s; afterwards exactly one timer of 600000 ms is
pending and the slot holds its handle. -/
theorem processStatusUpdate_renewal_timer_witness :
    (processStatusUpdate dev0 ⟨[], 0⟩
        ⟨some ⟨some ⟨none, none, none, none⟩, some "dev", some 600⟩⟩).2.timers =
      [⟨0, 600 * 1000, TimerCb.registerWebhookSub⟩] ∧
    (processStatusUpdate dev0 ⟨[], 0⟩
        ⟨some ⟨some ⟨none, none, none, none⟩, some "dev", some 600⟩⟩).1.webhookRegistrationTimeout =
      some 0 :=
  processStatusUpdate_renewal_timer dev0 ⟨[], 0⟩
    ⟨some ⟨none, none, none, none⟩, some "dev", some 600⟩ ⟨none, none, none, none⟩ 600
    rfl (fun _ h => (Option.some.inj h).symm) rfl
    (fun t ht => absurd ht (List.not_mem_nil t))

/-- C5: a payload whose body declares a string `commonName` different from
this device's identifier is ignored entirely: the device state, every
capability value and the timer system are returned unchanged. -/
theorem processStatusUpdate_foreign_payload (s : DeviceState) (ts : TimerSys)
    (body : WebhookBody) (cn : String) (hcn : body.commonName = some cn)
    (hne : cn ≠ s.dataId) :
    processStatusUpdate s ts ⟨some body⟩ = (s, ts) := by
  obtain ⟨uds, cno, ttlo⟩ := body
  simp only at hcn
  subst hcn
  have hguard : (cn != s.dataId) = true := by simpa [bne_iff_ne] using hne
  cases uds with
  | none => rfl
  | some ds =>
    unfold processStatusUpdate
    simp only [hguard, if_true]

/-- Witness for C5: a payload naming a different display is dropped with no
state mutation. -/
theorem processStatusUpdate_foreign_payload_witness :
    "other" ≠ dev0.dataId ∧
    processStatusUpdate dev0 ⟨[], 0⟩
        ⟨some ⟨some ⟨none, none, none, none⟩, some "other", some 600⟩⟩ = (dev0, ⟨[], 0⟩) :=
  ⟨by decide,
   processStatusUpdate_foreign_payload dev0 ⟨[], 0⟩
     ⟨some ⟨none, none, none, none⟩, some "other", some 600⟩ "other" rfl (by decide)⟩

/-- C6: `logout()` with zero persisted sessions raises (the JS `Object.keys(null)`
TypeError, surfaced as a rejected promise); with exactly one persisted
session it deletes that session and marks every managed device unavailable;
calling it again afterwards (the store is now empty) yields an error, not a
crash; and marking an already-unavailable device unavailable is a harmless
no-op. -/
theorem logout_spec :
    (∀ devices : List DeviceState, logout [] devices =
      .error "TypeError: Cannot convert undefined or null to object") ∧
    (∀ (sid : String) (devices : List DeviceState),
      logout [sid] devices = .ok ([], devices.map setUnavailable)) ∧
    (∀ devices : List DeviceState,
      ((devices.map setUnavailable).all fun d => !d.available) = true) ∧
    (∀ d : DeviceState, setUnavailable (setUnavailable d) = setUnavailable d) := by
  refine ⟨fun devices => rfl, ?_, ?_, fun d => rfl⟩
  · intro sid devices
    simp [logout, _getSession, List.filter]
  · intro devices
    simp [List.all_eq_true, setUnavailable]

/-- A device whose renewal-timer slot holds handle 7. -/
def devTimer : DeviceState := { dev0 with webhookRegistrationTimeout := some 7 }

/-- A timer system with that one pending renewal timer. -/
def tsTimer : TimerSys := ⟨[⟨7, 3600000, TimerCb.registerWebhookSub⟩], 8⟩

/-- Counterexample to C7: with a bound client whose unsubscribe call fails,
`onOAuth2Deleted` propagates the error instead of completing — the claim
that the removal handler always completes without propagating the failure is
false at this input (and `clearTimeout` is never reached). -/
theorem onOAuth2Deleted_claim_counterexample :
    onOAuth2Deleted devTimer tsTimer true false = .error "unsubscribe failed" ∧
    (onOAuth2Deleted devTimer tsTimer true false).toOption = none := ⟨rfl, rfl⟩

/-- C7 amended: on device removal, when the provider unsubscribe fails the
error propagates out of the handler and the pending renewal timer is not
cancelled; when the unsubscribe succeeds (or no client is bound) the handler
completes and cancels the pending renewal timer. -/
theorem onOAuth2Deleted_amended (s : DeviceState) (ts : TimerSys) :
    onOAuth2Deleted s ts true false = .error "unsubscribe failed" ∧
    (∀ hasClient, onOAuth2Deleted s ts hasClient true = .ok (s, clearRenewalTimer s ts)) ∧
    onOAuth2Deleted s ts false false = .ok (s, clearRenewalTimer s ts) := by
  refine ⟨rfl, ?_, rfl⟩
  intro hasClient
  cases hasClient <;> rfl

/-- A thermostat-info payload carrying only a numeric humidity of 45. -/
def humidityOnlyInfo : ThermostatInfo := ⟨none, none, none, none, some 45⟩

/-- Counterexample to C8: on a device without the humidity capability, the
payload adds the capability but does not set its value — afterwards the
capability exists yet does not hold the reported humidity 45. -/
theorem humidity_claim_counterexample :
    (_processThermostatInfoData dev0 humidityOnlyInfo).caps.has_measure_humidity = true ∧
    (_processThermostatInfoData dev0 humidityOnlyInfo).caps.measure_humidity ≠ some 45 := by
  constructor
  · rfl
  · intro hx
    rw [show (_processThermostatInfoData dev0 humidityOnlyInfo).caps.measure_humidity =
      none from by simp [_processThermostatInfoData, humidityOnlyInfo, dev0, emptyCaps]] at hx
    exact Option.noConfusion hx

set_option maxHeartbeats 1000000 in
/-- C8 amended: for a numeric humidity value, when the device already
exposes the capability its value is set to the reported humidity; when it
does not, the capability is added dynamically but its value is not set in
the same pass (the JS `if/else` chooses `addCapability` over
`setCapabilityValue`). -/
theorem humidity_amended (s : DeviceState) (ti : ThermostatInfo) (h : ℚ)
    (hh : ti.currentHumidity = some h) :
    (_processThermostatInfoData s ti).caps.has_measure_humidity = true ∧
    (s.caps.has_measure_humidity = true →
      (_processThermostatInfoData s ti).caps.measure_humidity = some h) ∧
    (s.caps.has_measure_humidity = false →
      (_processThermostatInfoData s ti).caps.measure_humidity = s.caps.measure_humidity) := by
  obtain ⟨cs, ps, av, cdt, ch⟩ := ti
  simp only at hh
  subst hh
  unfold _processThermostatInfoData
  dsimp only
  cases cdt <;> cases cs <;> cases av <;> cases hsm : s.caps.has_measure_humidity <;>
    simp [hsm]

/-- Witness for C8's amended claim at the concrete counterexample input. -/
theorem humidity_amended_witness :
    (_processThermostatInfoData dev0 humidityOnlyInfo).caps.has_measure_humidity = true ∧
    (dev0.caps.has_measure_humidity = true →
      (_processThermostatInfoData dev0 humidityOnlyInfo).caps.measure_humidity = some 45) ∧
    (dev0.caps.has_measure_humidity = false →
      (_processThermostatInfoData dev0 humidityOnlyInfo).caps.measure_humidity =
        dev0.caps.measure_humidity) :=
  humidity_amended dev0 humidityOnlyInfo 45 rfl

/-- C9: `updateState` maps the preset name to its enum id and always sends
the last-known thermostat-info baseline merged with that `activeState` and
with `programState` 2 (keep program) when resuming and 0 (override)
otherwise; on provider success, when the preset is not the sentinel
(`stateId ≥ 0`) and its setpoint is known in the map, it additionally sets
the target-temperature capability to the setpoint divided by 100 and
rounded to one decimal, and resolves with the state name. -/
theorem updateState_spec (s : DeviceState) (name : String) (keep : Bool)
    (providerOk : Bool) (sid : ℚ) (hsid : stateIdOf name = some sid) :
    (updateState s name keep providerOk).sent =
      { s.thermostatInfo with
        activeState := some sid,
        programState := some (if keep then 2 else 0) } ∧
    (∀ v : ℚ, providerOk = true → 0 ≤ sid →
      lookupAssocQ s.temperatureStatesMap sid = some v →
      (updateState s name keep providerOk).state.caps.target_temperature =
        some (roundCenti v) ∧
      (updateState s name keep providerOk).result = .ok name) := by
  unfold updateState
  rw [hsid]
  constructor
  · cases providerOk
    · rfl
    · dsimp only
      by_cases hq : (0:ℚ) ≤ sid <;> simp [hq]
  · intro v hok hpos hv
    subst hok
    dsimp only
    rw [if_pos hpos, hv]
    exact ⟨rfl, rfl⟩

/-- A device that knows the setpoint 1800 (18.0 degrees) for preset id 1
("home") and has a stored thermostat-info baseline. -/
def dev9 : DeviceState :=
  { dev0 with
    temperatureStatesMap := [(1, 1800)],
    thermostatInfo := ⟨some 2000, some 1, some 0, none, none⟩ }

/-- Witness for C9: setting preset "home" with resume on a successful
provider call sends the merged baseline and sets the capability to 18. -/
theorem updateState_spec_witness :
    stateIdOf "home" = some 1 ∧
    (0:ℚ) ≤ 1 ∧
    lookupAssocQ dev9.temperatureStatesMap 1 = some 1800 ∧
    (updateState dev9 "home" true true).sent =
      { dev9.thermostatInfo with activeState := some 1, programState := some 2 } ∧
    (updateState dev9 "home" true true).state.caps.target_temperature =
      some (roundCenti 1800) ∧
    (updateState dev9 "home" true true).result = .ok "home" := by
  have h := updateState_spec dev9 "home" true true 1 (by decide)
  have h2 := h.2 1800 rfl (by norm_num) (by decide)
  exact ⟨by decide, by norm_num, by decide, h.1, h2.1, h2.2⟩
